import Mathlib

/-!
Verification of the client-side interaction script (src/script.js).
The script wires up independent UI state machines: a mobile navigation
toggle, a scroll-reveal observer, marquee pause controls, hero parallax,
card tilt, and a keyboard-modality tracker.  Each is embedded below as a
pure transition function over an explicit state record, translated
directly from the source.
-/

/- =====================  Navigation toggle  ===================== -/

/-- Inline style properties of the nav element that openNav sets
(script.js lines 21-29) and closeNav clears (lines 35-43). -/
structure NavStyle where
  display : String
  flexDirection : String
  position : String
  rightOffset : String
  topOffset : String
  background : String
  padding : String
  borderRadius : String
  boxShadow : String
  deriving DecidableEq, Repr

/-- The observable nav state: the aria-expanded attribute on the toggle
control (none models an absent attribute, as getAttribute returns null)
and the inline style of the nav region. -/
structure NavDom where
  ariaExpanded : Option String
  navStyle : NavStyle
  deriving DecidableEq, Repr

/-- The default inline style: every property is the empty string. -/
def emptyNavStyle : NavStyle :=
  { display := "", flexDirection := "", position := "", rightOffset := ""
    topOffset := "", background := "", padding := "", borderRadius := ""
    boxShadow := "" }

/-- Startup state: no aria-expanded attribute on the toggle, nav style at
its default. -/
def initialNavDom : NavDom :=
  { ariaExpanded := none, navStyle := emptyNavStyle }

/-- Function openNav (script.js lines 17-30): set aria-expanded to true
and assign each inline style property. -/
def openNav (_ : NavDom) : NavDom :=
  { ariaExpanded := some "true"
    navStyle :=
      { display := "block"
        flexDirection := "column"
        position := "absolute"
        rightOffset := "28px"
        topOffset := "72px"
        background := "rgba(255,255,255,0.95)"
        padding := "12px"
        borderRadius := "10px"
        boxShadow := "0 10px 30px rgba(10,20,10,0.08)" } }

/-- Function closeNav (script.js lines 32-44): set aria-expanded to false
and reset each of the same inline style properties to the empty string. -/
def closeNav (_ : NavDom) : NavDom :=
  { ariaExpanded := some "false", navStyle := emptyNavStyle }

/-- The toggle click handler (script.js lines 47-52): read aria-expanded,
close when it is the string true, otherwise open. -/
def toggleClick (d : NavDom) : NavDom :=
  if d.ariaExpanded = some "true" then closeNav d else openNav d

/-- The nav is open exactly when its inline display style is block, the
condition the document-level close handlers test (lines 56 and 63). -/
def navIsOpen (d : NavDom) : Bool :=
  d.navStyle.display == "block"

/-- Where a click event target sits relative to the nav region and the
toggle control (the contains tests on line 56). -/
structure ClickTarget where
  inNav : Bool
  inToggle : Bool
  deriving DecidableEq, Repr

/-- The document click handler (script.js lines 55-59): close when the
nav display is block and the target is outside both nav and toggle. -/
def documentClick (t : ClickTarget) (d : NavDom) : NavDom :=
  if d.navStyle.display == "block" && !t.inNav && !t.inToggle then
    closeNav d
  else d

/-- The document keydown handler (script.js lines 62-66): close on the
Escape key while the nav display is block. -/
def escapeKeydown (key : String) (d : NavDom) : NavDom :=
  if key == "Escape" && d.navStyle.display == "block" then closeNav d else d

/-- Dispatch of one click event: a click whose target is inside the
toggle runs the toggle handler, whose stopPropagation (line 51) prevents
the document click handler from running in the same dispatch; any other
click reaches the document handler. -/
def dispatchClick (t : ClickTarget) (d : NavDom) : NavDom :=
  if t.inToggle then toggleClick d else documentClick t d

/-- After one or more toggle clicks from startup, the nav state is open
after an odd number of clicks and closed after an even one, given by the
two reachable states openNav and closeNav of the initial state. -/
theorem toggleClick_iterate (n : Nat) :
    toggleClick^[n + 1] initialNavDom =
      if (n + 1) % 2 = 1 then openNav initialNavDom else closeNav initialNavDom := by
  induction n with
  | zero => decide
  | succ m ih =>
    rw [Function.iterate_succ_apply', ih]
    rcases Nat.even_or_odd (m + 1) with h | h
    · have h1 : (m + 1) % 2 = 0 := Nat.even_iff.mp h
      have h2 : (m + 2) % 2 = 1 := by omega
      simp [h1, h2, toggleClick, closeNav, openNav]
    · have h1 : (m + 1) % 2 = 1 := Nat.odd_iff.mp h
      have h2 : (m + 2) % 2 = 0 := by omega
      simp [h1, h2, toggleClick, closeNav, openNav]

/-- C1: for every sequence of toggle clicks from the initial closed
state, the nav alternates strictly Closed, Open, Closed, and so on: it
is open exactly after an odd number of clicks, and after every click the
aria-expanded attribute on the toggle reads true exactly when the nav is
open. -/
theorem nav_toggle_alternation (n : Nat) (h : 1 ≤ n) :
    navIsOpen (toggleClick^[n] initialNavDom) = decide (n % 2 = 1)
    ∧ ((toggleClick^[n] initialNavDom).ariaExpanded = some "true" ↔
        navIsOpen (toggleClick^[n] initialNavDom) = true) := by
  obtain ⟨m, rfl⟩ : ∃ m, n = m + 1 := ⟨n - 1, by omega⟩
  rw [toggleClick_iterate]
  rcases Nat.even_or_odd (m + 1) with he | ho
  · have h1 : (m + 1) % 2 = 0 := Nat.even_iff.mp he
    simp [h1, navIsOpen, closeNav, openNav, emptyNavStyle]
  · have h1 : (m + 1) % 2 = 1 := Nat.odd_iff.mp ho
    simp [h1, navIsOpen, openNav]

theorem nav_toggle_alternation_witness :
    1 ≤ 2
    ∧ navIsOpen (toggleClick^[2] initialNavDom) = decide (2 % 2 = 1)
    ∧ ((toggleClick^[2] initialNavDom).ariaExpanded = some "true" ↔
        navIsOpen (toggleClick^[2] initialNavDom) = true) :=
  ⟨by decide, (nav_toggle_alternation 2 (by decide)).1,
    (nav_toggle_alternation 2 (by decide)).2⟩

/-- C2: while the nav is open, a document click whose target is outside
both the nav region and the toggle closes it, and an Escape keydown
closes it; both events are no-ops while the nav is already closed; and a
click whose target is inside the toggle runs only the toggle handler,
never the outside-click close, in the same dispatch. -/
theorem nav_close_triggers (d : NavDom) (t : ClickTarget) (k : String) :
    (navIsOpen d = true → t.inNav = false → t.inToggle = false →
      dispatchClick t d = closeNav d ∧ navIsOpen (dispatchClick t d) = false)
    ∧ (navIsOpen d = true →
        escapeKeydown "Escape" d = closeNav d
        ∧ navIsOpen (escapeKeydown "Escape" d) = false)
    ∧ (navIsOpen d = false → t.inToggle = false → dispatchClick t d = d)
    ∧ (navIsOpen d = false → escapeKeydown k d = d)
    ∧ (t.inToggle = true → dispatchClick t d = toggleClick d) := by
  refine ⟨fun hop hn ht => ?_, fun hop => ?_, fun hcl ht => ?_, fun hcl => ?_,
    fun ht => ?_⟩
  · simp only [navIsOpen] at hop
    constructor
    · simp [dispatchClick, documentClick, ht, hn, hop]
    · simp [dispatchClick, documentClick, ht, hn, hop, navIsOpen, closeNav,
        emptyNavStyle]
  · simp only [navIsOpen] at hop
    constructor
    · simp [escapeKeydown, hop]
    · simp [escapeKeydown, hop, navIsOpen, closeNav, emptyNavStyle]
  · simp only [navIsOpen] at hcl
    simp [dispatchClick, documentClick, ht, hcl]
  · simp only [navIsOpen] at hcl
    simp [escapeKeydown, hcl]
  · simp [dispatchClick, ht]

theorem nav_close_triggers_witness :
    dispatchClick ⟨false, false⟩ (openNav initialNavDom)
        = closeNav (openNav initialNavDom)
    ∧ escapeKeydown "Escape" (openNav initialNavDom)
        = closeNav (openNav initialNavDom)
    ∧ dispatchClick ⟨false, false⟩ initialNavDom = initialNavDom
    ∧ escapeKeydown "Escape" initialNavDom = initialNavDom
    ∧ dispatchClick ⟨false, true⟩ (openNav initialNavDom)
        = toggleClick (openNav initialNavDom) :=
  ⟨((nav_close_triggers (openNav initialNavDom) ⟨false, false⟩ "Escape").1
      (by decide) rfl rfl).1,
   ((nav_close_triggers (openNav initialNavDom) ⟨false, false⟩ "Escape").2.1
      (by decide)).1,
   (nav_close_triggers initialNavDom ⟨false, false⟩ "Escape").2.2.1
      (by decide) rfl,
   (nav_close_triggers initialNavDom ⟨false, false⟩ "Escape").2.2.2.1
      (by decide),
   (nav_close_triggers (openNav initialNavDom) ⟨false, true⟩ "Escape").2.2.2.2
      rfl⟩

/-- C10: closeNav clears exactly the inline style properties openNav
sets, so for a nav whose inline style starts at the default all-empty
record, closing after opening restores every inline style property to
its original empty value. -/
theorem nav_style_roundtrip (d : NavDom) :
    (closeNav (openNav d)).navStyle = emptyNavStyle
    ∧ (d.navStyle = emptyNavStyle →
        (closeNav (openNav d)).navStyle = d.navStyle) := by
  refine ⟨rfl, fun h => ?_⟩
  rw [h]
  rfl

theorem nav_style_roundtrip_witness :
    (closeNav (openNav initialNavDom)).navStyle = initialNavDom.navStyle :=
  (nav_style_roundtrip initialNavDom).2 rfl

/- =====================  Marquee pause controls  ===================== -/

/-- Events the marquee listeners react to (script.js lines 98-111). -/
inductive MarqueeEvent where
  | pointerEnter
  | pointerLeave
  | focusIn
  | focusOut
  deriving DecidableEq, Repr

/-- The four marquee handlers write animationPlayState directly per
event, ignoring the previous value: pointerenter and focusin write
paused, pointerleave and focusout write the empty string (script.js
lines 98-111). -/
def marqueePlayState (_ : String) (e : MarqueeEvent) : String :=
  match e with
  | .pointerEnter => "paused"
  | .pointerLeave => ""
  | .focusIn => "paused"
  | .focusOut => ""

/-- Whether the pointer is hovering the marquee after an event sequence:
set by pointerenter, cleared by pointerleave. -/
def hoverAfter (es : List MarqueeEvent) : Bool :=
  es.foldl
    (fun h e =>
      match e with
      | .pointerEnter => true
      | .pointerLeave => false
      | _ => h)
    false

/-- Whether keyboard focus is within the marquee after an event
sequence: set by focusin, cleared by focusout. -/
def focusWithinAfter (es : List MarqueeEvent) : Bool :=
  es.foldl
    (fun f e =>
      match e with
      | .focusIn => true
      | .focusOut => false
      | _ => f)
    false

/-- The paused state the specification requires: the logical OR of
pointer hover and keyboard focus within. -/
def specPaused (es : List MarqueeEvent) : Bool :=
  hoverAfter es || focusWithinAfter es

/-- The animationPlayState the code produces after an event sequence,
starting from the default empty inline value. -/
def codePlayState (es : List MarqueeEvent) : String :=
  es.foldl marqueePlayState ""

/-- C3: the code resumes the animation on pointerleave even while
keyboard focus is still inside the marquee.  After the sequence
pointerenter, focusin, pointerleave, focus is still within, so the
specified OR of the two conditions demands paused, yet the code has
reset animationPlayState to the empty running value. -/
theorem marquee_pointerleave_resumes_despite_focus :
    codePlayState [.pointerEnter, .focusIn, .pointerLeave] = ""
    ∧ focusWithinAfter [.pointerEnter, .focusIn, .pointerLeave] = true
    ∧ specPaused [.pointerEnter, .focusIn, .pointerLeave] = true := by
  refine ⟨rfl, rfl, rfl⟩

/-- Inline style of a marquee content element: the three properties the
script touches. -/
structure ContentStyle where
  animation : String
  transform : String
  animationPlayState : String
  deriving DecidableEq, Repr

/-- Default content style: all properties empty. -/
def defaultContentStyle : ContentStyle :=
  { animation := "", transform := "", animationPlayState := "" }

/-- The reduced-motion branch for a marquee content element (script.js
lines 114-117): animation none, transform translateX(0). -/
def reducedMotionSetup (c : ContentStyle) : ContentStyle :=
  { c with animation := "none", transform := "translateX(0)" }

/-- One marquee event applied to the content style: each of the four
handlers writes only animationPlayState (script.js lines 98-111) and
these listeners are installed whether or not reduced motion is active. -/
def contentStep (c : ContentStyle) (e : MarqueeEvent) : ContentStyle :=
  { c with animationPlayState := marqueePlayState c.animationPlayState e }

/-- C6 counterexample: with reduced motion active, a pointerenter event
still changes the content style, because the pause and resume listeners
remain attached and write animationPlayState; so the claim that no
pointer or focus event subsequently changes the animation state is
false. -/
theorem marquee_reduced_motion_event_changes_state :
    contentStep (reducedMotionSetup defaultContentStyle) .pointerEnter
      ≠ reducedMotionSetup defaultContentStyle := by
  decide

/-- C6 amended: with reduced motion active, the content animation is set
to none and its transform to the identity translateX(0), and no
subsequent sequence of pointer or focus events ever changes those two
properties; the events may still rewrite animationPlayState, which has
no running animation to act on. -/
theorem marquee_reduced_motion_styles_invariant (c : ContentStyle)
    (es : List MarqueeEvent) :
    (es.foldl contentStep (reducedMotionSetup c)).animation = "none"
    ∧ (es.foldl contentStep (reducedMotionSetup c)).transform
        = "translateX(0)" := by
  have general : ∀ (l : List MarqueeEvent) (s : ContentStyle),
      (l.foldl contentStep s).animation = s.animation
      ∧ (l.foldl contentStep s).transform = s.transform := by
    intro l
    induction l with
    | nil => intro s; exact ⟨rfl, rfl⟩
    | cons e rest ih =>
      intro s
      rw [List.foldl_cons]
      exact ⟨(ih (contentStep s e)).1, (ih (contentStep s e)).2⟩
  exact general es (reducedMotionSetup c)

/- =====================  Scroll reveal  ===================== -/

/-- Per-element reveal state: whether the visible class has been added
and whether the element is still observed by the intersection watcher. -/
structure RevealState where
  visible : Bool
  observed : Bool
  deriving DecidableEq, Repr

/-- On the observed path every reveal element starts hidden and
observed (script.js line 83). -/
def initialReveal : RevealState :=
  { visible := false, observed := true }

/-- One intersection notification carrying the visible fraction of the
element.  The observer is configured with threshold 0.12 (script.js
line 81), so a delivered entry is intersecting exactly when the fraction
is at or above 12 percent; the callback (lines 74-80) then adds the
visible class and unobserves the target, and an unobserved element
receives no further deliveries. -/
def revealStep (s : RevealState) (ratio : ℚ) : RevealState :=
  if s.observed = true ∧ (12 : ℚ) / 100 ≤ ratio then
    { visible := true, observed := false }
  else s

/-- State of one reveal element after a sequence of notifications from
startup. -/
def runReveal (l : List ℚ) : RevealState :=
  l.foldl revealStep initialReveal

/-- An unobserved element is never changed by further notifications. -/
theorem revealStep_unobserved (s : RevealState) (h : s.observed = false)
    (r : ℚ) : revealStep s r = s := by
  simp [revealStep, h]

/-- Folding notifications over an unobserved element is the identity. -/
theorem foldl_revealStep_unobserved (l : List ℚ) (s : RevealState)
    (h : s.observed = false) : l.foldl revealStep s = s := by
  induction l with
  | nil => rfl
  | cons r rest ih =>
    rw [List.foldl_cons, revealStep_unobserved s h r]
    exact ih

/-- Closed form of the reveal run: the element ends visible and
unobserved exactly when some notification reached the 12 percent
threshold, and otherwise remains in its initial state. -/
theorem runReveal_eq (l : List ℚ) :
    runReveal l =
      if l.any (fun r => decide ((12 : ℚ) / 100 ≤ r)) then
        { visible := true, observed := false }
      else initialReveal := by
  unfold runReveal
  induction l with
  | nil => rfl
  | cons r rest ih =>
    rw [List.foldl_cons]
    by_cases h : (12 : ℚ) / 100 ≤ r
    · have hstep : revealStep initialReveal r =
          { visible := true, observed := false } := by
        simp [revealStep, initialReveal, h]
      rw [hstep, foldl_revealStep_unobserved rest _ rfl]
      simp [List.any_cons, h]
    · have hstep : revealStep initialReveal r = initialReveal := by
        simp [revealStep, initialReveal, h]
      rw [hstep, ih]
      simp [List.any_cons, h]

/-- C4: on the observed path a reveal element is visible exactly when
some intersection notification has reached the 12 percent threshold, the
element is removed from observation exactly when it became visible, and
once visible no continuation of notifications ever makes it hidden
again. -/
theorem reveal_first_crossing (l : List ℚ) :
    (runReveal l).visible = l.any (fun r => decide ((12 : ℚ) / 100 ≤ r))
    ∧ (runReveal l).observed = !(runReveal l).visible
    ∧ (∀ l2 : List ℚ, (runReveal l).visible = true →
        (l2.foldl revealStep (runReveal l)).visible = true) := by
  rw [runReveal_eq]
  by_cases h : l.any (fun r => decide ((12 : ℚ) / 100 ≤ r)) = true
  · refine ⟨by simp [h], by simp [h], fun l2 _ => ?_⟩
    rw [if_pos h, foldl_revealStep_unobserved l2 _ rfl]
  · have h2 : l.any (fun r => decide ((12 : ℚ) / 100 ≤ r)) = false := by
      revert h
      cases l.any (fun r => decide ((12 : ℚ) / 100 ≤ r)) <;> simp
    refine ⟨by simp [h2, initialReveal], by simp [h2, initialReveal],
      fun l2 hv => ?_⟩
    rw [if_neg (by simp [h2])] at hv
    exact absurd hv (by simp [initialReveal])

theorem reveal_first_crossing_witness :
    (runReveal [(1 : ℚ) / 10, 1 / 2]).visible = true
    ∧ ([(0 : ℚ)].foldl revealStep (runReveal [(1 : ℚ) / 10, 1 / 2])).visible
        = true :=
  have hany : ([(1 : ℚ) / 10, 1 / 2].any
      fun r => decide ((12 : ℚ) / 100 ≤ r)) = true := by
    simp only [List.any_cons, List.any_nil, Bool.or_eq_true,
      decide_eq_true_eq]
    norm_num
  ⟨((reveal_first_crossing [(1 : ℚ) / 10, 1 / 2]).1).trans hany,
   (reveal_first_crossing [(1 : ℚ) / 10, 1 / 2]).2.2 [(0 : ℚ)]
     (((reveal_first_crossing [(1 : ℚ) / 10, 1 / 2]).1).trans hany)⟩

/-- Startup of the reveal controller (script.js lines 72-87): when
reduced motion is off and the runtime has the observer capability, no
element is visible and every element is registered with the watcher;
otherwise every element gets the visible class at once and none is
registered.  The result pairs the visible elements with the observed
elements. -/
def revealSetup (prefersReducedMotion : Bool) (observerSupported : Bool)
    (elems : List Nat) : List Nat × List Nat :=
  if !prefersReducedMotion && observerSupported then ([], elems)
  else (elems, [])

/-- C5: if reduced motion is active at startup, or the runtime lacks the
viewport-intersection observation capability, every reveal element is
marked visible immediately and zero observer registrations are made. -/
theorem reveal_degraded_eager (prm obs : Bool) (elems : List Nat)
    (h : prm = true ∨ obs = false) :
    revealSetup prm obs elems = (elems, []) := by
  rcases h with h | h <;> subst h <;> simp [revealSetup]

theorem reveal_degraded_eager_witness :
    revealSetup true true [0, 1, 2] = ([0, 1, 2], []) :=
  reveal_degraded_eager true true [0, 1, 2] (Or.inl rfl)

/- =====================  Hero parallax  ===================== -/

/-- Normalized pointer offset along one axis of the hero region
(script.js lines 129-130): the fraction of the way across the bounding
box minus one half, so the center maps to zero and the edges to plus or
minus one half. -/
def heroOffset (client edge size : ℚ) : ℚ :=
  (client - edge) / size - 1 / 2

/-- Depth factor for the leaf at index i (script.js line 132). -/
def leafDepth (i : Nat) : ℚ :=
  ((i : ℚ) + 1) * 6

/-- Base rotation for the leaf at index i (script.js line 134): the
conditional tests i mod 2 for truthiness, so an odd index gives -12 and
an even index gives 6. -/
def leafBaseRotate (i : Nat) : ℚ :=
  if i % 2 = 1 then -12 else 6

/-- Translation applied to the leaf at index i for normalized offset
(x, y) (script.js line 135). -/
def leafTranslate (x y : ℚ) (i : Nat) : ℚ × ℚ :=
  (x * leafDepth i, y * leafDepth i)

/-- C7: on a pointer move in the hero region with normalized centered
offset (x, y), the leaf at index i is translated by exactly
(x * (i + 1) * 6, y * (i + 1) * 6) pixels with base rotation 6 degrees
for even i and -12 for odd i; at the exact center the normalized offset
is zero on both axes and every translation is (0, 0). -/
theorem hero_parallax_formula (x y edge size : ℚ) (i : Nat)
    (hsize : size ≠ 0) :
    leafTranslate x y i = (x * ((i : ℚ) + 1) * 6, y * ((i : ℚ) + 1) * 6)
    ∧ leafBaseRotate i = (if i % 2 = 0 then 6 else -12)
    ∧ (x = 0 → y = 0 → leafTranslate x y i = (0, 0))
    ∧ heroOffset (edge + size / 2) edge size = 0 := by
  refine ⟨?_, ?_, ?_, ?_⟩
  · simp [leafTranslate, leafDepth, mul_assoc]
  · rcases Nat.mod_two_eq_zero_or_one i with h | h <;> simp [leafBaseRotate, h]
  · intro hx hy
    subst hx
    subst hy
    simp [leafTranslate]
  · unfold heroOffset
    field_simp
    ring

theorem hero_parallax_formula_witness :
    (100 : ℚ) ≠ 0
    ∧ leafTranslate 0 0 1 = (0, 0)
    ∧ heroOffset (10 + 100 / 2) 10 100 = 0 :=
  ⟨by norm_num,
   (hero_parallax_formula 0 0 10 100 1 (by norm_num)).2.2.1 rfl rfl,
   (hero_parallax_formula 0 0 10 100 1 (by norm_num)).2.2.2⟩

/- =====================  Card tilt  ===================== -/

/-- Normalized pointer position along one axis of a card bounding box
(script.js lines 153-154). -/
def cardNorm (client edge size : ℚ) : ℚ :=
  (client - edge) / size

/-- The rotateX tilt angle in degrees (script.js line 155). -/
def tiltRotateX (py : ℚ) : ℚ :=
  (py - 1 / 2) * 6

/-- The rotateY tilt angle in degrees (script.js line 156). -/
def tiltRotateY (px : ℚ) : ℚ :=
  (px - 1 / 2) * (-6)

/-- C8: on a pointer move over a card with normalized position
(px, py), the tilt angles are exactly rotateX = (py - 1/2) * 6 and
rotateY = (px - 1/2) * -6 degrees; the exact center (1/2, 1/2)
normalizes from the box midpoint and gives both angles zero, and the
top-left corner (0, 0) gives rotateX = -3 and rotateY = 3. -/
theorem card_tilt_formula (px py edge size : ℚ) (hsize : size ≠ 0) :
    tiltRotateX py = (py - 1 / 2) * 6
    ∧ tiltRotateY px = (px - 1 / 2) * (-6)
    ∧ tiltRotateX (1 / 2) = 0
    ∧ tiltRotateY (1 / 2) = 0
    ∧ tiltRotateX 0 = -3
    ∧ tiltRotateY 0 = 3
    ∧ cardNorm (edge + size / 2) edge size = 1 / 2
    ∧ cardNorm edge edge size = 0 := by
  refine ⟨rfl, rfl, by norm_num [tiltRotateX], by norm_num [tiltRotateY],
    by norm_num [tiltRotateX], by norm_num [tiltRotateY], ?_, ?_⟩
  · unfold cardNorm
    field_simp
    ring
  · simp [cardNorm]

theorem card_tilt_formula_witness :
    (200 : ℚ) ≠ 0
    ∧ tiltRotateX 0 = -3
    ∧ tiltRotateY 0 = 3
    ∧ cardNorm (40 + 200 / 2) 40 200 = 1 / 2 :=
  ⟨by norm_num,
   (card_tilt_formula 0 0 40 200 (by norm_num)).2.2.2.2.1,
   (card_tilt_formula 0 0 40 200 (by norm_num)).2.2.2.2.2.1,
   (card_tilt_formula 0 0 40 200 (by norm_num)).2.2.2.2.2.2.1⟩

/- =====================  Input modality tracker  ===================== -/

/-- State of the keyboardFocusOutline utility: the usingKeyboard flag
and whether the document root carries the using-keyboard class. -/
structure ModalityState where
  usingKeyboard : Bool
  docClassApplied : Bool
  deriving DecidableEq, Repr

/-- Startup modality state: flag unset, class absent (script.js
line 170). -/
def initialModality : ModalityState :=
  { usingKeyboard := false, docClassApplied := false }

/-- Input events relevant to the modality tracker; the script listens
only for keydown and mousedown (script.js lines 171 and 177), so other
pointer events are represented explicitly to show they change nothing. -/
inductive InputEvent where
  | keyDown (key : String)
  | mouseDown
  | pointerMove
  | pointerUp
  deriving DecidableEq, Repr

/-- The keyboardFocusOutline transition (script.js lines 169-183): a Tab
keydown sets the flag and adds the class; a mousedown clears both only
while the flag is set; no listener exists for any other event. -/
def modalityStep (s : ModalityState) (e : InputEvent) : ModalityState :=
  match e with
  | .keyDown k =>
      if k = "Tab" then { usingKeyboard := true, docClassApplied := true }
      else s
  | .mouseDown =>
      if s.usingKeyboard then
        { usingKeyboard := false, docClassApplied := false }
      else s
  | .pointerMove => s
  | .pointerUp => s

/-- C9: a Tab keydown sets usingKeyboard and applies the document-wide
class; a mousedown clears both exactly while usingKeyboard is set, and a
mousedown with no prior Tab press, in particular from the startup state,
changes nothing; no other key and no other pointer event type affects
the state. -/
theorem modality_tracker (s : ModalityState) (k : String) :
    modalityStep s (.keyDown "Tab")
        = { usingKeyboard := true, docClassApplied := true }
    ∧ (s.usingKeyboard = true → modalityStep s .mouseDown
        = { usingKeyboard := false, docClassApplied := false })
    ∧ (s.usingKeyboard = false → modalityStep s .mouseDown = s)
    ∧ modalityStep initialModality .mouseDown = initialModality
    ∧ (k ≠ "Tab" → modalityStep s (.keyDown k) = s)
    ∧ modalityStep s .pointerMove = s
    ∧ modalityStep s .pointerUp = s := by
  refine ⟨rfl, fun h => ?_, fun h => ?_, rfl, fun h => ?_, rfl, rfl⟩
  · simp [modalityStep, h]
  · simp [modalityStep, h]
  · simp [modalityStep, h]

theorem modality_tracker_witness :
    modalityStep initialModality (.keyDown "Tab")
        = { usingKeyboard := true, docClassApplied := true }
    ∧ modalityStep { usingKeyboard := true, docClassApplied := true }
        .mouseDown = { usingKeyboard := false, docClassApplied := false }
    ∧ modalityStep initialModality .mouseDown = initialModality
    ∧ modalityStep initialModality (.keyDown "a") = initialModality
    ∧ modalityStep initialModality .pointerMove = initialModality :=
  ⟨(modality_tracker initialModality "a").1,
   (modality_tracker { usingKeyboard := true, docClassApplied := true }
      "a").2.1 rfl,
   (modality_tracker initialModality "a").2.2.1 rfl,
   (modality_tracker initialModality "a").2.2.2.2.1 (by decide),
   (modality_tracker initialModality "a").2.2.2.2.2.1⟩
